import Mathlib

/-!
# Data-Sorter classification engine: verification of spec claims

Shallow embedding of the Data-Sorter address-classification engine
(`src/classifier.py`, `src/ireland.py`, `src/spain.py`, `src/spain_classifier.py`,
`src/detect_columns.py`, `src/output.py`) together with proofs of the
specification claims.

Modelling conventions:
* Python strings are `String` (lists of unicode scalar chars); Python string
  comparison (code-point lexicographic) coincides with Lean's `String` order.
* Python whitespace/character classes are modelled over their ASCII fragment,
  which covers every character the configuration and rules actually use.
* The concrete regular expressions appearing in the source
  (`\bP\b` country patterns, the Dublin-district patterns, the Eircode
  patterns, `\b\d{5}\b`) are translated to explicit character-list scanners.
  Each of those patterns is deterministic (the starred character classes are
  disjoint from the character that must follow), so a greedy scanner without
  backtracking is exactly equivalent to the regex.
* Operator-authored keyword patterns are opaque configuration data; the regex
  engine used for them is an explicit parameter (`RegexEngine`) recording both
  which patterns compile and what a compiled pattern matches, so that the
  point at which a malformed pattern surfaces is faithfully represented.
-/

set_option maxRecDepth 100000

deriving instance DecidableEq for Except

namespace DataSorter

/-! ## Python string primitives -/

/-- ASCII fragment of Python's `str.strip` / `\s` whitespace class. -/
def pySpace (c : Char) : Bool :=
  c = ' ' || c = '\t' || c = '\n' || c = '\r' || c = '\x0b' || c = '\x0c'

/-- Strip leading and trailing whitespace from a character list. -/
def stripChars (cs : List Char) : List Char :=
  ((cs.dropWhile pySpace).reverse.dropWhile pySpace).reverse

/-- Python `str.strip()`. -/
def pyStrip (s : String) : String :=
  ⟨stripChars s.data⟩

/-- Python `str.lower()` (ASCII fragment). -/
def pyLower (s : String) : String :=
  ⟨s.data.map Char.toLower⟩

/-- Python `str.upper()` (ASCII fragment). -/
def pyUpper (s : String) : String :=
  ⟨s.data.map Char.toUpper⟩

/-- Regex word character `\w` (ASCII fragment): letters, digits, underscore. -/
def isWordChar (c : Char) : Bool :=
  c.isAlphanum || c = '_'

/-- Substring containment (Python `in` on strings). -/
def containsStr (needle hay : String) : Bool :=
  (List.range (hay.data.length + 1)).any fun i =>
    needle.data.isPrefixOf (hay.data.drop i)

/-! ## Dublin district matching (`src/ireland.py`)

`DUBLIN_DISTRICTS` is the exact list from the source, in the order the
(insertion-ordered) pattern dict is iterated: descending numeric order with
`"6W"` placed between `"7"` and `"6"`. -/

def DUBLIN_DISTRICTS : List String :=
  ["24", "22", "20", "18", "17", "16", "15", "14", "13",
   "12", "11", "10", "9", "8", "7", "6W", "6", "5", "4", "3", "2", "1"]

/-- The separator class `[\s\-\.]` between "dublin" and the district. -/
def isSepChar (c : Char) : Bool :=
  pySpace c || c = '-' || c = '.'

/-- Lowercase ASCII letter test (the `(?![a-z])` lookahead class under
`IGNORECASE`, applied to already-lowercased text). -/
def isLowerAlpha (c : Char) : Bool :=
  'a' ≤ c && c ≤ 'z'

/-- Does the district pattern for `district` match at the head of the
(already lowercased) character list `cs`?

Translates the three regex shapes built by `build_dublin_patterns`:
* `"6W"`: `dublin[\s\-\.]*6\s*w(?![a-z])`
* multi-digit: `dublin[\s\-\.]*DD(?![0-9])`
* single digit: `dublin[\s\-\.]*D(?![0-9wW])`

The starred classes are disjoint from the next required character, so greedy
scanning is equivalent to the regex. -/
def dublinMatchAt (district : String) (cs : List Char) : Bool :=
  if ("dublin".data).isPrefixOf cs then
    let rest := (cs.drop 6).dropWhile isSepChar
    if district = "6W" then
      match rest with
      | '6' :: r1 =>
        match r1.dropWhile pySpace with
        | 'w' :: r3 =>
          match r3 with
          | [] => true
          | c :: _ => !(isLowerAlpha c)
        | _ => false
      | _ => false
    else
      if (district.data).isPrefixOf rest then
        match rest.drop district.length with
        | [] => true
        | c :: _ =>
          if district.length ≥ 2 then !(c.isDigit)
          else !(c.isDigit || c = 'w')
      else false
  else false

/-- Model of `pattern.search(text)` for the district pattern of `district`
(case-insensitive): does it match at any position of `text`? -/
def dublinSearch (district : String) (text : String) : Bool :=
  let lt := text.data.map Char.toLower
  (List.range (lt.length + 1)).any fun i => dublinMatchAt district (lt.drop i)

/-- Model of `match_dublin_district` from `src/ireland.py`: first district (in
`DUBLIN_DISTRICTS` order) whose pattern matches, as label `"Dublin <d>"`. -/
def match_dublin_district (text : String) : Option String :=
  if text = "" then none
  else
    DUBLIN_DISTRICTS.findSome? fun d =>
      if dublinSearch d text then some ("Dublin " ++ d) else none

/-! ## Word-boundary regex fragments

`\b` matches at position `j` of a text exactly when the word-character
property changes between positions `j-1` and `j` (out-of-range counts as
non-word). -/

/-- Is the character at index `j` (if any) a word character? -/
def wordAt (cs : List Char) (j : Nat) : Bool :=
  match (cs.drop j).head? with
  | some c => isWordChar c
  | none => false

/-- Does `\b` match at position `j` of `cs`? -/
def boundaryAt (cs : List Char) (j : Nat) : Bool :=
  (if j = 0 then false else wordAt cs (j - 1)) != wordAt cs j

/-- Model of `re.search(rf"\b{re.escape(p)}\b", t, re.IGNORECASE)` for a literal
(escaped) pattern `p`: the country-detection patterns of
`Classifier._compile_country_patterns`. -/
def wordBoundSearch (p t : String) : Bool :=
  let lp := p.data.map Char.toLower
  let lt := t.data.map Char.toLower
  (List.range (lt.length + 1)).any fun i =>
    boundaryAt lt i && lp.isPrefixOf (lt.drop i) && boundaryAt lt (i + lp.length)

/-! ## Eircode matching (`match_eircode` in `src/ireland.py`) -/

/-- The `[A-Z0-9]` class (text is already uppercased). -/
def alnumUpper (c : Char) : Bool :=
  ('A' ≤ c && c ≤ 'Z') || c.isDigit

/-- Model of `re.search(rf"\b{prefix}[A-Z0-9]{{4}}\b", textUpper)` for a literal
(escaped) prefix. -/
def eircodeFullSearch (prefixClean : List Char) (tU : List Char) : Bool :=
  (List.range (tU.length + 1)).any fun i =>
    boundaryAt tU i && prefixClean.isPrefixOf (tU.drop i) &&
      (let r := (tU.drop (i + prefixClean.length)).take 4
       r.length = 4 && r.all alnumUpper) &&
      boundaryAt tU (i + prefixClean.length + 4)

/-- Is `n` an infix of `h`? -/
def infixChars (n h : List Char) : Bool :=
  (List.range (h.length + 1)).any fun i => n.isPrefixOf (h.drop i)

/-- Model of `.upper().replace(" ", "")` -/
def upperNoSpace (s : String) : List Char :=
  (s.data.map Char.toUpper).filter fun c => c != ' '

/-- Model of `match_eircode` from `src/ireland.py`: try the full-Eircode pattern for
every prefix of the routing table (in order), then bare prefix containment. -/
def match_eircode (text : String) (eircode_routing : List (String × String)) :
    Option String :=
  if text = "" then none
  else
    let tU := upperNoSpace text
    match eircode_routing.findSome? (fun pr =>
        if eircodeFullSearch (upperNoSpace pr.1) tU then some pr.2 else none) with
    | some area => some area
    | none =>
        eircode_routing.findSome? fun pr =>
          if infixChars (upperNoSpace pr.1) tU then some pr.2 else none

/-! ## Spanish postal-code extraction (`src/spain_classifier.py`) -/

/-- Leftmost match of `\b(\d{5})\b` in `cs` (the captured digits). -/
def find5digit (cs : List Char) : Option String :=
  ((List.range (cs.length + 1)).find? fun i =>
      boundaryAt cs i &&
        (let r := (cs.drop i).take 5
         r.length = 5 && r.all Char.isDigit) &&
        boundaryAt cs (i + 5)).map
    fun i => ⟨(cs.drop i).take 5⟩

/-- Python `str.isdigit` (ASCII fragment): non-empty and all digits. -/
def pyIsDigit (cs : List Char) : Bool :=
  !cs.isEmpty && cs.all Char.isDigit

/-- Python `str.zfill(5)`. -/
def zfill5 (s : String) : String :=
  ⟨List.replicate (5 - s.data.length) '0' ++ s.data⟩

/-! ## Rule configuration (`rules.yaml` shape, as read by the engine) -/

/-- One entry of a keyword-area list: an area name with its (operator-authored,
opaque) regex patterns. -/
structure KeywordEntry where
  area : String
  patterns : List String
deriving DecidableEq

/-- The `areas` sub-table of a country configuration: the `keywords` lists of
`lettershop_areas` / `national_areas`, and the `ireland_other` fallback dict. -/
structure AreasCfg where
  lettershop_areas : List KeywordEntry := []
  national_areas : List KeywordEntry := []
  ireland_other : List (String × String) := []
deriving DecidableEq

/-- A per-country configuration. -/
structure CountryCfg where
  country_patterns : List String := []
  eircode_routing : List (String × String) := []
  areas : AreasCfg := {}
deriving DecidableEq

/-- The parsed rules configuration (the value of the `countries` key, an
insertion-ordered mapping). -/
structure RulesCfg where
  countries : List (String × CountryCfg)
deriving DecidableEq

/-- The regex engine used for the opaque keyword patterns: which pattern
strings compile, and what a compiled pattern's case-insensitive search
returns on a text.  (`re.search(pattern, text, re.IGNORECASE)` compiles
`pattern` at match time and raises `re.error` when it is malformed.) -/
structure RegexEngine where
  compileOk : String → Bool
  research : String → String → Bool

/-- Search a list of patterns against `text`, failing on the first pattern
that does not compile (as `re.search` does at match time). -/
def searchPatterns (eng : RegexEngine) (text : String) :
    List String → Except String Bool
  | [] => .ok false
  | p :: ps =>
    if eng.compileOk p then
      if eng.research p text then .ok true else searchPatterns eng text ps
    else .error ("re.error: bad pattern " ++ p)

/-- Shared loop of `match_lettershop_keyword` / `match_national_area`:
first entry any of whose patterns matches wins. -/
def matchKeywordList (eng : RegexEngine) (text : String) :
    List KeywordEntry → Except String (Option String)
  | [] => .ok none
  | e :: es =>
    match searchPatterns eng text e.patterns with
    | .error msg => .error msg
    | .ok true => .ok (some e.area)
    | .ok false => matchKeywordList eng text es

/-- Model of `match_lettershop_keyword` from `src/ireland.py` (lowers the text before
matching). -/
def match_lettershop_keyword (eng : RegexEngine) (text : String)
    (keywords : List KeywordEntry) : Except String (Option String) :=
  if text = "" then .ok none else matchKeywordList eng (pyLower text) keywords

/-- Model of `match_national_area` from `src/ireland.py`. -/
def match_national_area (eng : RegexEngine) (text : String)
    (keywords : List KeywordEntry) : Except String (Option String) :=
  if text = "" then .ok none else matchKeywordList eng text keywords

/-! ## The classifier (`src/classifier.py`) -/

/-- Result of classifying a single row (`src/models.py`). -/
structure ClassificationResult where
  area : String
  routing : String
  reason : String := ""
deriving DecidableEq

/-- Model of `Classifier` state: the loaded config and the country-detection patterns
pre-compiled at construction (`_compile_country_patterns`); since the
patterns are `re.escape`d literals wrapped in `\b...\b`, a compiled pattern
is fully described by its literal text. -/
structure Classifier where
  config : RulesCfg
  countryRegexes : List (String × List String)
deriving DecidableEq

/-- Model of `_compile_country_patterns`: performed once at `__init__`. -/
def compileCountryPatterns (cfg : RulesCfg) : List (String × List String) :=
  cfg.countries.map fun pr => (pr.1, pr.2.country_patterns)

/-- Model of `Classifier.__init__` after YAML parsing: `None` models a parse result
that is not a dict with a `countries` key (→ `ConfigError`); keyword
patterns are not examined here. -/
def initClassifier (raw : Option RulesCfg) : Except String Classifier :=
  match raw with
  | none => .error "ConfigError: Rules config must have a countries key"
  | some cfg => .ok ⟨cfg, compileCountryPatterns cfg⟩

/-- Scan one text against all pre-compiled country patterns, in configuration
order. -/
def scanCountries (C : Classifier) (t : String) : Option String :=
  C.countryRegexes.findSome? fun pr =>
    if pr.2.any (fun p => wordBoundSearch p t) then some pr.1 else none

/-- Model of `Classifier._detect_country`. -/
def detectCountry (C : Classifier) (combined country_val : String) :
    Option String :=
  if country_val ≠ "" then
    match scanCountries C country_val with
    | some c => some c
    | none => scanCountries C combined
  else scanCountries C combined

/-- Model of `Classifier._get_routing_for_area`. -/
def getRoutingForArea (area : String) (cfg : CountryCfg) : String :=
  if ("Dublin ".data).isPrefixOf area.data then "LETTERSHOP"
  else if cfg.areas.lettershop_areas.any (fun e => e.area == area) then
    "LETTERSHOP"
  else "NATIONAL"

/-- Model of `Classifier._classify_ireland`: Eircode → Dublin district → lettershop
keywords → national areas → fallback. -/
def classifyIreland (C : Classifier) (eng : RegexEngine) (combined : String) :
    Except String ClassificationResult :=
  match C.config.countries.lookup "ireland" with
  | none => .error "KeyError: ireland"
  | some icfg =>
    match match_eircode combined icfg.eircode_routing with
    | some area => .ok ⟨area, getRoutingForArea area icfg, ""⟩
    | none =>
      match match_dublin_district combined with
      | some d => .ok ⟨d, "LETTERSHOP", ""⟩
      | none =>
        match match_lettershop_keyword eng combined icfg.areas.lettershop_areas with
        | .error e => .error e
        | .ok (some a) => .ok ⟨a, "LETTERSHOP", ""⟩
        | .ok none =>
          match match_national_area eng combined icfg.areas.national_areas with
          | .error e => .error e
          | .ok (some a) => .ok ⟨a, "NATIONAL", ""⟩
          | .ok none =>
            if icfg.areas.ireland_other ≠ [] then
              .ok ⟨(icfg.areas.ireland_other.lookup "area").getD "Ireland Other",
                   (icfg.areas.ireland_other.lookup "routing").getD "NATIONAL",
                   ""⟩
            else .ok ⟨"", "", "Ireland address: no area matched"⟩

/-- The keys of `Classifier.country_handlers`: only `"ireland"` has a
registered handler (`_classify_ireland`). -/
def countryHandlers : List String :=
  ["ireland"]

/-- Python `str.title()` (ASCII fragment): a letter is uppercased when the
previous character is not a letter, lowercased otherwise. -/
def pyTitleChars : Bool → List Char → List Char
  | _, [] => []
  | prev, c :: cs =>
    if c.isAlpha then
      (if prev then c.toLower else c.toUpper) :: pyTitleChars true cs
    else c :: pyTitleChars false cs

/-- Python `str.title()`. -/
def pyTitle (s : String) : String :=
  ⟨pyTitleChars false s.data⟩

/-- Model of `Classifier._classify_row`: empty-address short-circuit, country
detection, dispatch (only `"ireland"` has a registered handler), known
country without handler → INTERNATIONAL, no country → speculative Ireland
chain accepted only for a specific (non-fallback) area. -/
def classifyRow (C : Classifier) (eng : RegexEngine)
    (combined country_val : String) : Except String ClassificationResult :=
  if pyStrip combined = "" then .ok ⟨"", "", "Empty address"⟩
  else
    match detectCountry C combined country_val with
    | some c =>
      if countryHandlers.contains c then classifyIreland C eng combined
      else .ok ⟨pyTitle c, "INTERNATIONAL", ""⟩
    | none =>
      match classifyIreland C eng combined with
      | .error e => .error e
      | .ok r =>
        if r.reason = "" ∧ r.area ≠ "Ireland Other" then .ok r
        else .ok ⟨"", "", "Could not determine country or area"⟩

/-! ## Rows, column mapping, and the DataFrame-level `classify` -/

/-- A row: an association of column names to (string) values; a missing key
models an absent/NaN cell. -/
abbrev Row := List (String × String)

/-- Model of `row.get(k)` with default. -/
def getColD (r : Row) (k dflt : String) : String :=
  (r.lookup k).getD dflt

/-- Column assignment `df[k] = v` for one row: replaces any previous value. -/
def rowSetCol (r : Row) (k v : String) : Row :=
  (r.filter fun p => p.1 != k) ++ [(k, v)]

/-- Remove a column (`df.drop(columns=[k])`). -/
def dropCol (r : Row) (k : String) : Row :=
  r.filter fun p => p.1 != k

/-- Model of `ColumnMapping` from `src/models.py`. -/
structure ColumnMapping where
  address_line_1 : Option String := none
  address_line_2 : Option String := none
  address_line_3 : Option String := none
  city : Option String := none
  county : Option String := none
  postcode : Option String := none
  country : Option String := none
deriving DecidableEq

/-- The combined-address text of a row (`str(row.get("combined_address", ""))`). -/
def combinedOf (r : Row) : String :=
  getColD r "combined_address" ""

/-- The country-column value of a row: stripped if present, `""` if the
column is unmapped or the cell is missing. -/
def countryValOf (cm : ColumnMapping) (r : Row) : String :=
  match cm.country with
  | none => ""
  | some cn => ((r.lookup cn).map pyStrip).getD ""

/-- The per-row loop of `Classifier.classify`: classify every row in order
(a raised per-row error aborts the whole run). -/
def classifyResults (C : Classifier) (eng : RegexEngine) (cm : ColumnMapping) :
    List Row → Except String (List ClassificationResult)
  | [] => .ok []
  | r :: rs =>
    match classifyRow C eng (combinedOf r) (countryValOf cm r) with
    | .error e => .error e
    | .ok res =>
      match classifyResults C eng cm rs with
      | .error e => .error e
      | .ok l => .ok (res :: l)

/-- Attach the three result columns added by `Classifier.classify`. -/
def annotateRow (r : Row) (res : ClassificationResult) : Row :=
  rowSetCol (rowSetCol (rowSetCol r "Lettershop Area" res.area)
    "Routing" res.routing) "_exception_reason" res.reason

/-- The `_exception_reason` value of an annotated row. -/
def reasonOf (r : Row) : String :=
  getColD r "_exception_reason" ""

/-! ### The stable sort of classified rows

`df_classified.sort_values(by=["Routing", "Lettershop Area"], key=..., kind="mergesort")`
sorts stably and lexicographically by the key tuples
`((0 if x == "LETTERSHOP" else 1, x))` of the two columns.  Python tuple/str
comparison is code-point lexicographic, which coincides with Lean's `Nat`
and `String` orders. -/

/-- One level of lexicographic comparison: strictly smaller first component,
or equal first components and `leB` on the second. -/
def lexComb {α β : Type} [LinearOrder α] (leB : β → β → Bool) (x y : α × β) :
    Bool :=
  decide (x.1 < y.1) || (decide (x.1 = y.1) && leB x.2 y.2)

/-- Strict lexicographic (code-point) order on character lists — Python's
string `<`. -/
def clLt : List Char → List Char → Bool
  | [], [] => false
  | [], _ :: _ => true
  | _ :: _, [] => false
  | a :: as, b :: bs => decide (a < b) || (a == b && clLt as bs)

/-- Python string `<=` as a Bool. -/
def sLeB (a b : String) : Bool :=
  !(clLt b.data a.data)

/-- One level of lexicographic comparison with a string first component. -/
def lexStr {β : Type} (leB : β → β → Bool) (x y : String × β) : Bool :=
  clLt x.1.data y.1.data || (x.1 == y.1 && leB x.2 y.2)

/-- The sort key for one pandas key tuple pair. -/
abbrev SortKey := Nat × String × Nat × String

/-- Model of `0 if x == "LETTERSHOP" else 1`. -/
def bucketFlag (s : String) : Nat :=
  if s = "LETTERSHOP" then 0 else 1

/-- The Ireland classifier's sort key of a classified row. -/
def irelandKey (r : Row) : SortKey :=
  let routing := getColD r "Routing" ""
  let area := getColD r "Lettershop Area" ""
  (bucketFlag routing, routing, bucketFlag area, area)

/-- Lexicographic ≤ on sort keys. -/
def keyLe : SortKey → SortKey → Bool :=
  lexComb (lexStr (lexComb sLeB))

/-- Row comparator used for the Ireland classified sheet. -/
def rowLe (a b : Row) : Bool :=
  keyLe (irelandKey a) (irelandKey b)

/-- The annotated table of `Classifier.classify` (the input rows with the
three result columns attached), before partitioning. -/
def annotatedRows (C : Classifier) (eng : RegexEngine) (rows : List Row)
    (cm : ColumnMapping) : Except String (List Row) :=
  match classifyResults C eng cm rows with
  | .error e => .error e
  | .ok results => .ok (List.zipWith annotateRow rows results)

/-- The classified table in input order (before the stable sort), with the
internal `_exception_reason` column dropped. -/
def classifyUnsorted (C : Classifier) (eng : RegexEngine) (rows : List Row)
    (cm : ColumnMapping) : Except String (List Row) :=
  match annotatedRows C eng rows cm with
  | .error e => .error e
  | .ok annotated =>
    .ok ((annotated.filter fun r => reasonOf r == "").map
      fun r => dropCol r "_exception_reason")

/-- Model of `Classifier.classify`: classify all rows, attach result columns,
partition into classified/exception tables, stably sort the classified
table (LETTERSHOP bucket first, then by area). -/
def classifyDf (C : Classifier) (eng : RegexEngine) (rows : List Row)
    (cm : ColumnMapping) : Except String (List Row × List Row) :=
  match annotatedRows C eng rows cm with
  | .error e => .error e
  | .ok annotated =>
    let classified0 := (annotated.filter fun r => reasonOf r == "").map
      fun r => dropCol r "_exception_reason"
    let exceptions := annotated.filter fun r => reasonOf r != ""
    .ok (classified0.mergeSort rowLe, exceptions)

/-! ## Stats aggregation (`_compute_stats` in `src/output.py`) -/

/-- Model of `PipelineStats` from `src/models.py`; the `value_counts` dicts are
modelled as count functions over the corresponding column. -/
structure PipelineStats where
  total_rows : Nat
  classified_rows : Nat
  exception_rows : Nat
  area_counts : String → Nat
  routing_counts : String → Nat

/-- Model of `_compute_stats`. -/
def computeStats (dfC dfE : List Row) : PipelineStats where
  total_rows := dfC.length + dfE.length
  classified_rows := dfC.length
  exception_rows := dfE.length
  area_counts := fun a =>
    ((dfC.filterMap fun r => r.lookup "Area").filter fun v => v == a).length
  routing_counts := fun a =>
    ((dfC.filterMap fun r => r.lookup "Routing").filter fun v => v == a).length

/-! ## Spain classifier (`src/spain_classifier.py`, `src/spain.py`) -/

/-- Model of `match_d1_postal_code`: flat code → locality lookup. -/
def match_d1_postal_code (postcode : String) (d1 : List (String × String)) :
    Option String :=
  d1.lookup postcode

/-- Model of `_extract_postcode_from_column`: stripped cell value, leading-zero
re-padding of purely numeric values, then `\b(\d{5})\b` search. -/
def spainExtractFromColumn (r : Row) (cm : ColumnMapping) : Option String :=
  match cm.postcode with
  | none => none
  | some pc =>
    match r.lookup pc with
    | none => none
    | some raw =>
      let text := pyStrip raw
      let text2 := if pyIsDigit text.data then zfill5 text else text
      find5digit text2.data

/-- Model of `_extract_postcode_from_text`. -/
def spainExtractFromText (t : String) : Option String :=
  if pyStrip t = "" then none else find5digit t.data

/-- Steps 1–2 of `SpainClassifier._classify_row`: the postcode from the
mapped column, or failing that from the combined text. -/
def spainPostcodeOf (r : Row) (cm : ColumnMapping) : Option String :=
  match spainExtractFromColumn r cm with
  | some p => some p
  | none => spainExtractFromText (combinedOf r)

/-- Model of `SpainClassifier._classify_row`. -/
def spainClassifyRow (d1 : List (String × String)) (r : Row)
    (cm : ColumnMapping) : ClassificationResult :=
  match spainPostcodeOf r cm with
  | none => ⟨"", "", "No valid 5-digit postal code found"⟩
  | some code =>
    match match_d1_postal_code code d1 with
    | some loc => ⟨loc, "D1", ""⟩
    | none => ⟨"D2", "D2", ""⟩

/-- Attach the three result columns added by `SpainClassifier.classify`. -/
def spainAnnotate (r : Row) (res : ClassificationResult) : Row :=
  rowSetCol (rowSetCol (rowSetCol r "Area" res.area)
    "Routing" res.routing) "_exception_reason" res.reason

/-- The Spain classified sheet's sort key (`by=["Routing", "Area"]`, no key
function). -/
def spainKey (r : Row) : String × String :=
  (getColD r "Routing" "", getColD r "Area" "")

/-- Row comparator for the Spain classified sheet. -/
def spainLe (a b : Row) : Bool :=
  lexStr sLeB (spainKey a) (spainKey b)

/-- The annotated table of `SpainClassifier.classify`. -/
def spainAnnotatedRows (d1 : List (String × String)) (rows : List Row)
    (cm : ColumnMapping) : List Row :=
  List.zipWith spainAnnotate rows (rows.map fun r => spainClassifyRow d1 r cm)

/-- The Spain classified table in input order (before the stable sort). -/
def spainUnsorted (d1 : List (String × String)) (rows : List Row)
    (cm : ColumnMapping) : List Row :=
  ((spainAnnotatedRows d1 rows cm).filter fun r => reasonOf r == "").map
    fun r => dropCol r "_exception_reason"

/-- Model of `SpainClassifier.classify`. -/
def spainClassify (d1 : List (String × String)) (rows : List Row)
    (cm : ColumnMapping) : List Row × List Row :=
  ((spainUnsorted d1 rows cm).mergeSort spainLe,
   (spainAnnotatedRows d1 rows cm).filter fun r => reasonOf r != "")

/-! ## Column detection (`src/detect_columns.py`)

`detect_columns` builds `available = set(actual_columns)` and iterates over
that set.  Python set iteration order is unspecified (it depends on the
per-process string hash seed), so the embedding takes the pool explicitly as
an ordered list: `pool` is the iteration order of the set of actual
columns.  Everything else is deterministic. -/

/-- Model of `LOGICAL_FIELDS`, in priority order. -/
def LOGICAL_FIELDS : List String :=
  ["address_line_1", "address_line_2", "address_line_3",
   "city", "county", "postcode", "country"]

/-- Split a character list on runs of whitespace (Python `str.split()`),
dropping empty pieces. -/
def splitWsAux : List Char → List Char → List (List Char)
  | [], acc => if acc.isEmpty then [] else [acc.reverse]
  | c :: cs, acc =>
    if pySpace c then
      if acc.isEmpty then splitWsAux cs [] else acc.reverse :: splitWsAux cs []
    else splitWsAux cs (c :: acc)

/-- Model of `_normalize_simple`:
`" ".join(name.lower().strip().replace("_", " ").replace("-", " ").split())`. -/
def normalizeSimple (s : String) : String :=
  let t := (pyStrip (pyLower s)).data.map fun c =>
    if c = '_' ∨ c = '-' then ' ' else c
  ⟨List.intercalate [' '] (splitWsAux t [])⟩

/-- Model of `_exact_match`: first alias (in order) having a case-insensitive,
stripped equal column in the pool (in pool iteration order). -/
def exactMatch (aliases : List String) (avail : List String) : Option String :=
  aliases.findSome? fun a =>
    let al := pyStrip (pyLower a)
    avail.find? fun col => pyStrip (pyLower col) == al

/-- Model of `_normalized_match`. -/
def normalizedMatch (aliases : List String) (avail : List String) :
    Option String :=
  aliases.findSome? fun a =>
    let an := normalizeSimple a
    avail.find? fun col => normalizeSimple col == an

/-! ### `difflib.SequenceMatcher.ratio` (Ratcliff–Obershelp)

Strings here are far below the autojunk threshold (200 characters), so the
junk machinery of `SequenceMatcher` is inactive.  Scores are kept as exact
rational pairs `(numerator, denominator)`; all the column-name scores
compared are far from representability boundaries of the floats Python
compares, so exact comparison agrees with the float comparison. -/

/-- Length of the common prefix run of two character lists. -/
def runLen : List Char → List Char → Nat
  | a :: as, b :: bs => if a = b then runLen as bs + 1 else 0
  | _, _ => 0

/-- Length of the matching block of `a[i:ahi]` / `b[j:bhi]` starting at
`(i, j)`. -/
def blockLen (a b : List Char) (ahi bhi i j : Nat) : Nat :=
  runLen ((a.take ahi).drop i) ((b.take bhi).drop j)

/-- Model of `find_longest_match` (no junk): the longest matching block in the
window, ties resolved to the smallest `i`, then the smallest `j`. -/
def longestMatch (a b : List Char) (alo ahi blo bhi : Nat) :
    Nat × Nat × Nat :=
  ((List.range ahi).flatMap fun i => (List.range bhi).map fun j => (i, j)).foldl
    (fun best pr =>
      if alo ≤ pr.1 ∧ blo ≤ pr.2 then
        let k := blockLen a b ahi bhi pr.1 pr.2
        if k > best.2.2 then (pr.1, pr.2, k) else best
      else best)
    (alo, blo, 0)

/-- Total size of all matching blocks (the `M` of `ratio`): recursively
split around the longest match.  The fuel argument bounds the recursion
depth; `(ahi - alo) + (bhi - blo)` always suffices because both
sub-windows are strictly smaller. -/
def matchSum (a b : List Char) : Nat → Nat → Nat → Nat → Nat → Nat
  | 0, _, _, _, _ => 0
  | fuel + 1, alo, ahi, blo, bhi =>
    let m := longestMatch a b alo ahi blo bhi
    if m.2.2 = 0 then 0
    else
      matchSum a b fuel alo m.1 blo m.2.1 + m.2.2 +
        matchSum a b fuel (m.1 + m.2.2) ahi (m.2.1 + m.2.2) bhi

/-- Model of `SequenceMatcher(None, a, b).ratio()` as an exact rational
`(numerator, denominator)`: `2*M / (len(a)+len(b))`, and `1` when both are
empty. -/
def ratioPair (a b : List Char) : Nat × Nat :=
  let T := a.length + b.length
  if T = 0 then (1, 1)
  else (2 * matchSum a b T 0 a.length 0 b.length, T)

/-- Model of `x > y` on rational score pairs. -/
def scoreGT (x y : Nat × Nat) : Bool :=
  x.1 * y.2 > y.1 * x.2

/-- Model of `x ≥ 3/4` (the `FUZZY_THRESHOLD = 0.75`). -/
def scoreGeThreshold (x : Nat × Nat) : Bool :=
  4 * x.1 ≥ 3 * x.2

/-- Model of `_fuzzy_match`: best-scoring (strictly improving, in alias-then-pool
iteration order) pair at or above the threshold. -/
def fuzzyMatch (aliases : List String) (avail : List String) : Option String :=
  ((aliases.flatMap fun al => avail.map fun col => (al, col)).foldl
    (fun st pr =>
      let sc := ratioPair (normalizeSimple pr.1).data (normalizeSimple pr.2).data
      if scoreGT sc st.1 ∧ scoreGeThreshold sc then (sc, some pr.2) else st)
    ((0, 1), none)).2

/-- One pass of `detect_columns`: visit all logical fields in priority
order, skip already-mapped fields, claim the matched column (removing it
from the pool). -/
def runPass (matcher : List String → List String → Option String)
    (aliases : List (String × List String)) :
    List String → List (String × String) × List String →
      List (String × String) × List String
  | [], st => st
  | f :: fs, st =>
    if (st.1.lookup f).isSome then runPass matcher aliases fs st
    else
      match matcher ((aliases.lookup f).getD []) st.2 with
      | some col => runPass matcher aliases fs (st.1 ++ [(f, col)], st.2.erase col)
      | none => runPass matcher aliases fs st

/-- Model of `detect_columns`: three exhaustive passes (exact, normalized, fuzzy),
each over all logical fields; an empty mapping raises
`ColumnDetectionError`. -/
def detectColumns (aliases : List (String × List String))
    (pool : List String) : Except String (List (String × String)) :=
  if (runPass fuzzyMatch aliases LOGICAL_FIELDS
      (runPass normalizedMatch aliases LOGICAL_FIELDS
        (runPass exactMatch aliases LOGICAL_FIELDS ([], pool)))).1.isEmpty then
    .error "ColumnDetectionError: could not detect any address columns"
  else
    .ok (runPass fuzzyMatch aliases LOGICAL_FIELDS
      (runPass normalizedMatch aliases LOGICAL_FIELDS
        (runPass exactMatch aliases LOGICAL_FIELDS ([], pool)))).1

/-! ## Concrete fixtures

Small configurations and datasets used to instantiate the claim theorems on
concrete inputs.  The rules configuration mirrors the documented
`rules.yaml` shape (an Ireland profile with Eircode, Dublin-district,
keyword and fallback stages, plus a handler-less second country). -/

/-- A regex engine in which every pattern compiles and a pattern matches a
text exactly when it occurs in it case-insensitively (enough for the plain
keyword patterns of the fixtures). -/
def engEx : RegexEngine :=
  ⟨fun _ => true, fun p t => containsStr (pyLower p) (pyLower t)⟩

/-- Fixture Ireland profile. -/
def irelandCfgEx : CountryCfg :=
  { country_patterns := ["Ireland", "Eire"],
    eircode_routing := [("D02", "Dublin 2")],
    areas := { lettershop_areas := [⟨"Blackrock", ["blackrock"]⟩],
               national_areas := [⟨"Cork", ["cork"]⟩, ⟨"Galway", ["galway"]⟩],
               ireland_other := [("routing", "NATIONAL"), ("area", "Ireland Other")] } }

/-- Fixture rules configuration: Ireland plus a handler-less country. -/
def rulesCfgEx : RulesCfg :=
  ⟨[("ireland", irelandCfgEx), ("spain", { country_patterns := ["Spain"] })]⟩

/-- Fixture classifier (as built by `initClassifier (some rulesCfgEx)`). -/
def classifierEx : Classifier :=
  ⟨rulesCfgEx, compileCountryPatterns rulesCfgEx⟩

/-- Fixture column-alias configuration. -/
def aliasesEx : List (String × List String) :=
  [("country", ["country"]), ("county", ["county"]), ("city", ["city"])]

/-- Fixture column mapping: only the country column is mapped. -/
def cmEx : ColumnMapping :=
  { country := some "Country" }

/-- Fixture dataset for the DataFrame-level claims. -/
def rowsEx : List Row :=
  [[("combined_address", "456 Oak Road, Cork City"), ("Country", "Ireland")],
   [("combined_address", "123 Main St, Dublin 10, Ireland"), ("Country", "Ireland")],
   [("combined_address", ""), ("Country", "Ireland")],
   [("combined_address", "12 Shop St, Galway"), ("Country", "Ireland")]]

/-- Fixture Spain D1 table. -/
def d1Ex : List (String × String) :=
  [("28001", "MADRID"), ("01001", "VITORIA")]

/-- The classified table produced by `classifyDf` on the fixture dataset
(sorted: the LETTERSHOP row first, then the NATIONAL rows by area). -/
def classifiedEx : List Row :=
  [[("combined_address", "123 Main St, Dublin 10, Ireland"), ("Country", "Ireland"),
    ("Lettershop Area", "Dublin 10"), ("Routing", "LETTERSHOP")],
   [("combined_address", "456 Oak Road, Cork City"), ("Country", "Ireland"),
    ("Lettershop Area", "Cork"), ("Routing", "NATIONAL")],
   [("combined_address", "12 Shop St, Galway"), ("Country", "Ireland"),
    ("Lettershop Area", "Galway"), ("Routing", "NATIONAL")]]

/-- The exception table produced by `classifyDf` on the fixture dataset. -/
def exceptionsEx : List Row :=
  [[("combined_address", ""), ("Country", "Ireland"),
    ("Lettershop Area", ""), ("Routing", ""),
    ("_exception_reason", "Empty address")]]

/-- The classified table on the fixture dataset in input order (pre-sort). -/
def unsortedEx : List Row :=
  [[("combined_address", "456 Oak Road, Cork City"), ("Country", "Ireland"),
    ("Lettershop Area", "Cork"), ("Routing", "NATIONAL")],
   [("combined_address", "123 Main St, Dublin 10, Ireland"), ("Country", "Ireland"),
    ("Lettershop Area", "Dublin 10"), ("Routing", "LETTERSHOP")],
   [("combined_address", "12 Shop St, Galway"), ("Country", "Ireland"),
    ("Lettershop Area", "Galway"), ("Routing", "NATIONAL")]]

/-- An Ireland profile with a malformed keyword pattern `"("`. -/
def badIrelandCfg : CountryCfg :=
  { country_patterns := ["Ireland"],
    areas := { lettershop_areas := [⟨"X", ["("]⟩] } }

/-- A configuration whose Ireland profile has a malformed keyword pattern
`"("`. -/
def badKeywordCfg : RulesCfg :=
  ⟨[("ireland", badIrelandCfg)]⟩

/-- A regex engine for which the pattern `"("` fails to compile. -/
def engStrict : RegexEngine :=
  ⟨fun p => p != "(", fun _ _ => false⟩

/-! ## General helper lemmas -/

/-- A hit of `findSome?` on a list that contains a hit at `d` is produced by
`d` or by an element before it. -/
theorem findSome_mem_front {α β : Type} (f : α → Option β) (v : β) :
    ∀ (l1 : List α) (d : α) (l2 : List α), f d = some v →
      ∃ w a, (l1 ++ d :: l2).findSome? f = some w ∧ a ∈ l1 ++ [d] ∧ f a = some w := by
  intro l1
  induction l1 with
  | nil =>
    intro d l2 hd
    exact ⟨v, d, by simp [List.findSome?_cons, hd], by simp, hd⟩
  | cons a l1 ih =>
    intro d l2 hd
    cases ha : f a with
    | some w =>
      exact ⟨w, a, by simp [List.findSome?_cons, ha], by simp, ha⟩
    | none =>
      obtain ⟨w, a2, hfind, hmem, hfa⟩ := ih d l2 hd
      exact ⟨w, a2, by simp [List.findSome?_cons, ha, hfind], by simp at hmem ⊢; tauto, hfa⟩

/-- A binding present in an association list survives appending. -/
theorem lookup_append_left {α β : Type} [BEq α] {l1 : List (α × β)} {k : α}
    {v : β} (h : l1.lookup k = some v) (l2 : List (α × β)) :
    (l1 ++ l2).lookup k = some v := by
  induction l1 with
  | nil => simp [List.lookup] at h
  | cons p l1 ih =>
    simp only [List.lookup, List.cons_append] at h ⊢
    cases hk : k == p.1 with
    | true => simpa [hk] using h
    | false => simp only [hk] at h ⊢; exact ih h

/-- Transitivity of one level of lexicographic comparison. -/
theorem lexComb_trans {α β : Type} [LinearOrder α] {leB : β → β → Bool}
    (hB : ∀ x y z, leB x y = true → leB y z = true → leB x z = true) :
    ∀ x y z : α × β, lexComb leB x y = true → lexComb leB y z = true →
      lexComb leB x z = true := by
  intro x y z h1 h2
  simp only [lexComb, Bool.or_eq_true, Bool.and_eq_true, decide_eq_true_eq] at h1 h2 ⊢
  rcases h1 with hlt1 | ⟨heq1, hb1⟩ <;> rcases h2 with hlt2 | ⟨heq2, hb2⟩
  · exact Or.inl (lt_trans hlt1 hlt2)
  · exact Or.inl (heq2 ▸ hlt1)
  · exact Or.inl (heq1 ▸ hlt2)
  · exact Or.inr ⟨heq1.trans heq2, hB _ _ _ hb1 hb2⟩

/-- Totality of one level of lexicographic comparison. -/
theorem lexComb_total {α β : Type} [LinearOrder α] {leB : β → β → Bool}
    (hB : ∀ x y, leB x y || leB y x) :
    ∀ x y : α × β, lexComb leB x y || lexComb leB y x := by
  intro x y
  simp only [lexComb, Bool.or_eq_true, Bool.and_eq_true, decide_eq_true_eq]
  rcases lt_trichotomy x.1 y.1 with h | h | h
  · tauto
  · have := hB x.2 y.2
    rcases Bool.or_eq_true _ _ |>.mp this with hb | hb
    · exact Or.inl (Or.inr ⟨h, hb⟩)
    · exact Or.inr (Or.inr ⟨h.symm, hb⟩)
  · tauto

/-- One level of lexicographic comparison is reflexive when the base is. -/
theorem lexComb_refl {α β : Type} [LinearOrder α] {leB : β → β → Bool}
    (hB : ∀ x, leB x x = true) (x : α × β) : lexComb leB x x = true := by
  simp [lexComb, hB]

theorem clLt_irrefl : ∀ a : List Char, clLt a a = false := by
  intro a
  induction a with
  | nil => rfl
  | cons x xs ih => simp [clLt, lt_irrefl, ih]

theorem clLt_trans : ∀ a b c : List Char,
    clLt a b = true → clLt b c = true → clLt a c = true := by
  intro a
  induction a with
  | nil =>
    intro b c h1 h2
    cases b with
    | nil => cases h1
    | cons y ys =>
      cases c with
      | nil => cases h2
      | cons z zs => rfl
  | cons x xs ih =>
    intro b c h1 h2
    cases b with
    | nil => cases h1
    | cons y ys =>
      cases c with
      | nil => cases h2
      | cons z zs =>
        simp only [clLt, Bool.or_eq_true, Bool.and_eq_true, decide_eq_true_eq,
          beq_iff_eq] at h1 h2 ⊢
        rcases h1 with hxy | ⟨hxy, hxs⟩ <;> rcases h2 with hyz | ⟨hyz, hys⟩
        · exact Or.inl (lt_trans hxy hyz)
        · exact Or.inl (hyz ▸ hxy)
        · exact Or.inl (hxy ▸ hyz)
        · exact Or.inr ⟨hxy.trans hyz, ih ys zs hxs hys⟩

theorem clLt_eq_of_not_both : ∀ a b : List Char,
    clLt a b = false → clLt b a = false → a = b := by
  intro a
  induction a with
  | nil =>
    intro b h1 _
    cases b with
    | nil => rfl
    | cons y ys => cases h1
  | cons x xs ih =>
    intro b h1 h2
    cases b with
    | nil => cases h2
    | cons y ys =>
      simp only [clLt, Bool.or_eq_false_iff, Bool.and_eq_false_iff,
        decide_eq_false_iff_not, beq_eq_false_iff_ne, ne_eq] at h1 h2
      rcases lt_trichotomy x y with hlt | heq | hgt
      · exact absurd hlt h1.1
      · subst heq
        rcases h1.2 with hbad | hxs
        · exact absurd rfl hbad
        · rcases h2.2 with hbad | hys
          · exact absurd rfl hbad
          · rw [ih ys hxs hys]
      · exact absurd hgt h2.1

theorem sLeB_trans : ∀ x y z : String,
    sLeB x y = true → sLeB y z = true → sLeB x z = true := by
  intro x y z h1 h2
  simp only [sLeB, Bool.not_eq_true'] at h1 h2 ⊢
  cases hza : clLt z.data x.data with
  | false => rfl
  | true =>
    cases hxy : clLt x.data y.data with
    | true =>
      have := clLt_trans _ _ _ hza hxy
      rw [this] at h2
      cases h2
    | false =>
      have hxz : x.data = y.data := clLt_eq_of_not_both _ _ hxy h1
      rw [← hxz] at h2
      rw [hza] at h2
      cases h2

theorem sLeB_total : ∀ x y : String, sLeB x y || sLeB y x := by
  intro x y
  simp only [sLeB, Bool.or_eq_true, Bool.not_eq_true]
  cases hxy : clLt y.data x.data with
  | false => exact Or.inl rfl
  | true =>
    cases hyx : clLt x.data y.data with
    | false => exact Or.inr rfl
    | true =>
      have := clLt_trans _ _ _ hxy hyx
      rw [clLt_irrefl] at this
      cases this

theorem sLeB_refl (x : String) : sLeB x x = true := by
  simp [sLeB, clLt_irrefl]

/-- Strings are equal when their character lists are. -/
theorem string_eq_of_data_eq : ∀ {a b : String}, a.data = b.data → a = b := by
  intro a b h
  exact congrArg String.mk h

theorem lexStr_trans {β : Type} {leB : β → β → Bool}
    (hB : ∀ x y z, leB x y = true → leB y z = true → leB x z = true) :
    ∀ x y z : String × β, lexStr leB x y = true → lexStr leB y z = true →
      lexStr leB x z = true := by
  intro x y z h1 h2
  simp only [lexStr, Bool.or_eq_true, Bool.and_eq_true, beq_iff_eq] at h1 h2 ⊢
  rcases h1 with hlt1 | ⟨heq1, hb1⟩ <;> rcases h2 with hlt2 | ⟨heq2, hb2⟩
  · exact Or.inl (clLt_trans _ _ _ hlt1 hlt2)
  · exact Or.inl (heq2 ▸ hlt1)
  · exact Or.inl (heq1 ▸ hlt2)
  · exact Or.inr ⟨heq1.trans heq2, hB _ _ _ hb1 hb2⟩

theorem lexStr_total {β : Type} {leB : β → β → Bool}
    (hB : ∀ x y, leB x y || leB y x) :
    ∀ x y : String × β, lexStr leB x y || lexStr leB y x := by
  intro x y
  simp only [lexStr, Bool.or_eq_true, Bool.and_eq_true, beq_iff_eq]
  cases hxy : clLt x.1.data y.1.data with
  | true => tauto
  | false =>
    cases hyx : clLt y.1.data x.1.data with
    | true => tauto
    | false =>
      have heq : x.1 = y.1 :=
        string_eq_of_data_eq (clLt_eq_of_not_both _ _ hxy hyx)
      rcases Bool.or_eq_true _ _ |>.mp (hB x.2 y.2) with hb | hb
      · exact Or.inl (Or.inr ⟨heq, hb⟩)
      · exact Or.inr (Or.inr ⟨heq.symm, hb⟩)

theorem lexStr_refl {β : Type} {leB : β → β → Bool}
    (hB : ∀ x, leB x x = true) (x : String × β) : lexStr leB x x = true := by
  simp [lexStr, clLt_irrefl, hB]

theorem keyLe_trans : ∀ x y z : SortKey,
    keyLe x y = true → keyLe y z = true → keyLe x z = true :=
  lexComb_trans (lexStr_trans (lexComb_trans sLeB_trans))

theorem keyLe_total : ∀ x y : SortKey, keyLe x y || keyLe y x :=
  lexComb_total (lexStr_total (lexComb_total sLeB_total))

theorem keyLe_refl (x : SortKey) : keyLe x x = true :=
  lexComb_refl (lexStr_refl (lexComb_refl sLeB_refl)) x

theorem rowLe_trans : ∀ a b c : Row,
    rowLe a b = true → rowLe b c = true → rowLe a c = true :=
  fun _ _ _ h1 h2 => keyLe_trans _ _ _ h1 h2

theorem rowLe_total : ∀ a b : Row, rowLe a b || rowLe b a :=
  fun a b => keyLe_total (irelandKey a) (irelandKey b)

theorem spainLe_trans : ∀ a b c : Row,
    spainLe a b = true → spainLe b c = true → spainLe a c = true :=
  fun _ _ _ h1 h2 => lexStr_trans sLeB_trans _ _ _ h1 h2

theorem spainLe_total : ∀ a b : Row, spainLe a b || spainLe b a :=
  fun a b => lexStr_total sLeB_total (spainKey a) (spainKey b)

/-- A stable sort does not reorder the elements selected by a predicate
whose holders are mutually `le`-tied: filtering the sorted list gives the
filter of the input, in input order. -/
theorem mergeSort_filter_stable {α : Type} (le : α → α → Bool)
    (htrans : ∀ a b c, le a b = true → le b c = true → le a c = true)
    (htotal : ∀ a b, le a b || le b a)
    (p : α → Bool) (hp : ∀ a b, p a = true → p b = true → le a b = true)
    (l : List α) : (l.mergeSort le).filter p = l.filter p := by
  have hc : (l.filter p).Pairwise fun a b => le a b = true := by
    apply List.pairwise_of_forall_mem_list
    intro a ha b hb
    exact hp a b (List.of_mem_filter ha) (List.of_mem_filter hb)
  have h1 : List.Sublist (l.filter p) (l.mergeSort le) :=
    List.sublist_mergeSort htrans htotal hc (List.filter_sublist l)
  have h2 : (l.filter p).filter p = l.filter p :=
    List.filter_eq_self.mpr fun a ha => List.of_mem_filter ha
  have h3 : List.Sublist (l.filter p) ((l.mergeSort le).filter p) := by
    have := h1.filter p
    rwa [h2] at this
  have hperm : List.Perm ((l.mergeSort le).filter p) (l.filter p) :=
    (List.mergeSort_perm l le).filter p
  exact (h3.eq_of_length hperm.length_eq.symm).symm

/-- If the pattern of district `d` matches a text and every district listed
before `d` carries a label other than `bad` (as does `d` itself), then the
district matcher cannot answer `bad` on that text. -/
theorem dublin_search_excludes (d bad : String) (l1 l2 : List String)
    (hsplit : DUBLIN_DISTRICTS = l1 ++ d :: l2)
    (hbadd : "Dublin " ++ d ≠ bad)
    (hbad1 : ∀ a ∈ l1, "Dublin " ++ a ≠ bad) :
    ∀ t, dublinSearch d t = true → match_dublin_district t ≠ some bad := by
  intro t h
  have ht : t ≠ "" := by
    intro he
    subst he
    simp only [dublinSearch, List.length_nil, List.range_succ, List.range_zero,
      List.any_eq_true] at h
    obtain ⟨i, -, hi⟩ := h
    have hdm : dublinMatchAt d (List.drop i ("".data.map Char.toLower)) = false := by
      have : List.drop i ("".data.map Char.toLower) = [] := by
        simp [String.data]
      rw [this]
      simp [dublinMatchAt, List.isPrefixOf]
    rw [hdm] at hi
    cases hi
  unfold match_dublin_district
  rw [if_neg ht, hsplit]
  obtain ⟨w, a, hfind, hmem, hfa⟩ :=
    findSome_mem_front (fun x => if dublinSearch x t then some ("Dublin " ++ x) else none)
      ("Dublin " ++ d) l1 d (l2) (by simp [h])
  rw [hfind]
  intro hc
  have hw : w = bad := Option.some.inj hc
  have hwa : "Dublin " ++ a = w := by
    by_cases hda : dublinSearch a t = true
    · rw [if_pos hda] at hfa
      exact Option.some.inj hfa
    · rw [if_neg hda] at hfa
      cases hfa
  rw [List.mem_append] at hmem
  rcases hmem with hmem | hmem
  · exact hbad1 a hmem (hwa.trans hw)
  · have : a = d := by simpa using hmem
    subst this
    exact hbadd (hwa.trans hw)

/-- Claim C2: Dublin-district matching priority: whenever district `10`'s
pattern finds a match, the result is never `"Dublin 1"`; whenever district
`6W`'s pattern finds a match, the result is never `"Dublin 6"`; and the
scenario texts resolve to `"Dublin 10"`, `"Dublin 6W"` and `"Dublin 6"`
respectively. -/
theorem c2_dublin_district_priority :
    (∀ t, dublinSearch "10" t = true → match_dublin_district t ≠ some "Dublin 1") ∧
    (∀ t, dublinSearch "6W" t = true → match_dublin_district t ≠ some "Dublin 6") ∧
    match_dublin_district "123 Main St, Dublin 10, Ireland" = some "Dublin 10" ∧
    match_dublin_district "Rathgar, Dublin 6W" = some "Dublin 6W" ∧
    match_dublin_district "Dublin 6" = some "Dublin 6" := by
  refine ⟨?_, ?_, by decide, by decide, by decide⟩
  · exact dublin_search_excludes "10" "Dublin 1"
      ["24", "22", "20", "18", "17", "16", "15", "14", "13", "12", "11"]
      ["9", "8", "7", "6W", "6", "5", "4", "3", "2", "1"]
      rfl (by decide) (by decide)
  · exact dublin_search_excludes "6W" "Dublin 6"
      ["24", "22", "20", "18", "17", "16", "15", "14", "13", "12", "11", "10",
       "9", "8", "7"]
      ["6", "5", "4", "3", "2", "1"]
      rfl (by decide) (by decide)

/-- Witness for C2: instantiating the priority statements on the scenario
texts. -/
theorem c2_witness :
    match_dublin_district "123 Main St, Dublin 10, Ireland" ≠ some "Dublin 1" ∧
    match_dublin_district "Rathgar, Dublin 6W" ≠ some "Dublin 6" :=
  ⟨c2_dublin_district_priority.1 "123 Main St, Dublin 10, Ireland" (by decide),
   c2_dublin_district_priority.2.1 "Rathgar, Dublin 6W" (by decide)⟩

/-- Claim C8: a blank/whitespace-only combined address short-circuits (for
every classifier, regex engine and country value alike) to the exception
result whose reason contains (indeed equals) "Empty address". -/
theorem c8_empty_address (C : Classifier) (eng : RegexEngine)
    (combined country_val : String) (h : pyStrip combined = "") :
    classifyRow C eng combined country_val = .ok ⟨"", "", "Empty address"⟩ ∧
    containsStr "Empty address" "Empty address" = true := by
  refine ⟨?_, by decide⟩
  simp [classifyRow, h]

/-- Witness for C8 at the whitespace-only address `"   "`. -/
theorem c8_witness :
    classifyRow classifierEx engEx "   " "Ireland" = .ok ⟨"", "", "Empty address"⟩ ∧
    containsStr "Empty address" "Empty address" = true :=
  c8_empty_address classifierEx engEx "   " "Ireland" (by decide)

/-- Claim C10: a detected country with no registered handler classifies the
row (reason empty, so it lands in the classified table) with the
title-cased country name as area and routing INTERNATIONAL. -/
theorem c10_international (C : Classifier) (eng : RegexEngine)
    (combined country_val c : String)
    (h1 : pyStrip combined ≠ "")
    (h2 : detectCountry C combined country_val = some c)
    (h3 : countryHandlers.contains c = false) :
    classifyRow C eng combined country_val = .ok ⟨pyTitle c, "INTERNATIONAL", ""⟩ ∧
    (ClassificationResult.mk (pyTitle c) "INTERNATIONAL" "").reason = "" := by
  refine ⟨?_, rfl⟩
  unfold classifyRow
  rw [if_neg h1, h2]
  simp only [h3]
  rfl

/-- Witness for C10: the fixture's handler-less country `"spain"`. -/
theorem c10_witness :
    classifyRow classifierEx engEx "Calle Mayor, Spain" "" =
      .ok ⟨pyTitle "spain", "INTERNATIONAL", ""⟩ ∧
    (ClassificationResult.mk (pyTitle "spain") "INTERNATIONAL" "").reason = "" :=
  c10_international classifierEx engEx "Calle Mayor, Spain" "" "spain"
    (by decide) (by decide) (by decide)

/-- Claim C7 counterexample: with a malformed lettershop keyword pattern
`"("` in the configuration, engine construction succeeds (no ConfigError is
raised at load time — keyword patterns are never examined there), and the
malformed pattern instead surfaces as an error while classifying a row. -/
theorem c7_counterexample :
    initClassifier (some badKeywordCfg) =
      .ok ⟨badKeywordCfg, compileCountryPatterns badKeywordCfg⟩ ∧
    classifyDf ⟨badKeywordCfg, compileCountryPatterns badKeywordCfg⟩ engStrict
      [[("combined_address", "Baile, Ireland")]] {} =
      .error "re.error: bad pattern (" := by
  constructor
  · rfl
  · decide

/-- Claim C7 amended: only the country-detection patterns are compiled at
construction; construction never inspects (and so never rejects) keyword
patterns, and a keyword pattern that fails to compile surfaces as an error
during row classification, when the keyword stage is reached. -/
theorem c7_patterns_compiled (cfg : RulesCfg) :
    initClassifier (some cfg) = .ok ⟨cfg, compileCountryPatterns cfg⟩ ∧
    (∀ (C : Classifier) (eng : RegexEngine) (combined : String)
       (icfg : CountryCfg) (area p : String) (ps : List String)
       (rest : List KeywordEntry),
      C.config.countries.lookup "ireland" = some icfg →
      icfg.areas.lettershop_areas = ⟨area, p :: ps⟩ :: rest →
      eng.compileOk p = false →
      match_eircode combined icfg.eircode_routing = none →
      match_dublin_district combined = none →
      combined ≠ "" →
      classifyIreland C eng combined = .error ("re.error: bad pattern " ++ p)) := by
  refine ⟨rfl, ?_⟩
  intro C eng combined icfg area p ps rest hic hkw hcomp he hd hne
  simp [classifyIreland, hic, he, hd, match_lettershop_keyword, hne, hkw,
    matchKeywordList, searchPatterns, hcomp]

/-- Witness for C7 (amended): the fixture bad configuration. -/
theorem c7_witness :
    initClassifier (some badKeywordCfg) =
      .ok ⟨badKeywordCfg, compileCountryPatterns badKeywordCfg⟩ ∧
    classifyIreland ⟨badKeywordCfg, compileCountryPatterns badKeywordCfg⟩
      engStrict "Baile, Ireland" = .error ("re.error: bad pattern " ++ "(") :=
  ⟨(c7_patterns_compiled badKeywordCfg).1,
   (c7_patterns_compiled badKeywordCfg).2
     ⟨badKeywordCfg, compileCountryPatterns badKeywordCfg⟩ engStrict
     "Baile, Ireland" badIrelandCfg "X" "(" [] [] (by decide) (by decide)
     (by decide) (by decide) (by decide) (by decide)⟩

/-- Claim C5 counterexample: the rejection reason is
`"No valid 5-digit postal code found"`, which does not contain the
claimed phrase `"no valid postal code found"`. -/
theorem c5_counterexample :
    spainClassifyRow d1Ex [("combined_address", "no code here")] {} =
      ⟨"", "", "No valid 5-digit postal code found"⟩ ∧
    containsStr "no valid postal code found"
      "No valid 5-digit postal code found" = false := by
  decide

/-- Claim C5 amended: Spain profile classification by extracted postal code:
a code present in the D1 table gives (locality, D1); a valid code absent
from the table gives the generic D2 area; no valid code gives the rejection
reason `"No valid 5-digit postal code found"` (which contains
"postal code found"); together with the concrete scenarios, including the
leading-zero re-padding path. -/
theorem c5_spain_postal (d1 : List (String × String)) (r : Row)
    (cm : ColumnMapping) :
    (∀ code loc, spainPostcodeOf r cm = some code →
      match_d1_postal_code code d1 = some loc →
      spainClassifyRow d1 r cm = ⟨loc, "D1", ""⟩) ∧
    (∀ code, spainPostcodeOf r cm = some code →
      match_d1_postal_code code d1 = none →
      spainClassifyRow d1 r cm = ⟨"D2", "D2", ""⟩) ∧
    (spainPostcodeOf r cm = none →
      spainClassifyRow d1 r cm = ⟨"", "", "No valid 5-digit postal code found"⟩ ∧
      containsStr "postal code found"
        "No valid 5-digit postal code found" = true) ∧
    spainClassifyRow d1Ex [("combined_address", "Calle X, 28001 Madrid")] {} =
      ⟨"MADRID", "D1", ""⟩ ∧
    spainClassifyRow d1Ex [("combined_address", "Calle X, 50001 Zaragoza")] {} =
      ⟨"D2", "D2", ""⟩ ∧
    spainClassifyRow d1Ex [("PC", "1001")] { postcode := some "PC" } =
      ⟨"VITORIA", "D1", ""⟩ := by
  refine ⟨?_, ?_, ?_, by decide, by decide, by decide⟩
  · intro code loc hpc hd1
    simp only [spainClassifyRow, hpc]
    rw [hd1]
  · intro code hpc hd1
    simp only [spainClassifyRow, hpc]
    rw [hd1]
  · intro hpc
    refine ⟨?_, by decide⟩
    simp [spainClassifyRow, hpc]

/-- Witness for C5 (amended): the no-code branch at a concrete row. -/
theorem c5_witness :
    spainClassifyRow d1Ex [("combined_address", "sin codigo")] {} =
      ⟨"", "", "No valid 5-digit postal code found"⟩ ∧
    containsStr "postal code found"
      "No valid 5-digit postal code found" = true :=
  (c5_spain_postal d1Ex [("combined_address", "sin codigo")] {}).2.2.1 (by decide)

/-- Claim C4: with the Ireland profile configured, a row whose country is
positively detected as Ireland but on which no Eircode, district or keyword
rule fires gets the configured fallback area/routing; a row with no
detected country at all gets the speculative Ireland-chain result exactly
when that result is classified with a non-fallback area, and is otherwise
rejected as unclassifiable. -/
theorem c4_fallback_and_speculative (C : Classifier) (eng : RegexEngine)
    (combined country_val : String) (icfg : CountryCfg)
    (hic : C.config.countries.lookup "ireland" = some icfg)
    (h1 : pyStrip combined ≠ "") :
    (detectCountry C combined country_val = some "ireland" →
      match_eircode combined icfg.eircode_routing = none →
      match_dublin_district combined = none →
      match_lettershop_keyword eng combined icfg.areas.lettershop_areas = .ok none →
      match_national_area eng combined icfg.areas.national_areas = .ok none →
      icfg.areas.ireland_other ≠ [] →
      classifyRow C eng combined country_val =
        .ok ⟨(icfg.areas.ireland_other.lookup "area").getD "Ireland Other",
             (icfg.areas.ireland_other.lookup "routing").getD "NATIONAL", ""⟩) ∧
    (detectCountry C combined country_val = none →
      ∀ r, classifyIreland C eng combined = .ok r →
        ((r.reason = "" ∧ r.area ≠ "Ireland Other") →
          classifyRow C eng combined country_val = .ok r) ∧
        (¬(r.reason = "" ∧ r.area ≠ "Ireland Other") →
          classifyRow C eng combined country_val =
            .ok ⟨"", "", "Could not determine country or area"⟩)) := by
  constructor
  · intro hdet he hd hl hn hf
    unfold classifyRow
    rw [if_neg h1, hdet]
    simp only [show countryHandlers.contains "ireland" = true from rfl]
    simp [classifyIreland, hic, he, hd, hl, hn, if_pos hf]
  · intro hdet r hr
    constructor
    · intro hacc
      unfold classifyRow
      rw [if_neg h1, hdet]
      simp [hr, hacc]
    · intro hrej
      unfold classifyRow
      rw [if_neg h1, hdet]
      simp [hr, hrej]

/-- Witness for C4: the fixture classifier, on the spec's fallback scenario
and on an unmatchable address with no detectable country. -/
theorem c4_witness :
    classifyRow classifierEx engEx "Some Random Place, Ireland" "Ireland" =
      .ok ⟨(irelandCfgEx.areas.ireland_other.lookup "area").getD "Ireland Other",
           (irelandCfgEx.areas.ireland_other.lookup "routing").getD "NATIONAL",
           ""⟩ ∧
    classifyRow classifierEx engEx "zzz qqq" "" =
      .ok ⟨"", "", "Could not determine country or area"⟩ :=
  ⟨(c4_fallback_and_speculative classifierEx engEx "Some Random Place, Ireland"
      "Ireland" irelandCfgEx (by decide) (by decide)).1 (by decide) (by decide)
      (by decide) (by decide) (by decide) (by decide),
   ((c4_fallback_and_speculative classifierEx engEx "zzz qqq" "" irelandCfgEx
      (by decide) (by decide)).2 (by decide) ⟨"Ireland Other", "NATIONAL", ""⟩
      (by decide)).2 (by decide)⟩

/-- The classify loop yields one result per input row. -/
theorem classifyResults_length (C : Classifier) (eng : RegexEngine)
    (cm : ColumnMapping) :
    ∀ (rows : List Row) (res : List ClassificationResult),
      classifyResults C eng cm rows = .ok res → res.length = rows.length := by
  intro rows
  induction rows with
  | nil =>
    intro res h
    simp only [classifyResults] at h
    injection h with h
    rw [← h]
    rfl
  | cons r rs ih =>
    intro res h
    simp only [classifyResults] at h
    cases h1 : classifyRow C eng (combinedOf r) (countryValOf cm r) with
    | error m => rw [h1] at h; cases h
    | ok cr =>
      rw [h1] at h
      cases h2 : classifyResults C eng cm rs with
      | error m => rw [h2] at h; cases h
      | ok l =>
        rw [h2] at h
        injection h with h
        rw [← h, List.length_cons, ih l h2]
        rfl

/-- Claim C1: `classify` partitions the input — the computed stats count the
whole dataset, `total = classified + exception`, the two tables' sizes sum
to the input size, and every annotated input row lands in exactly one of
the two tables (the classified table is a permutation of the reason-free
annotated rows, the exception table is exactly the rest, in order). -/
theorem c1_partition_and_stats (C : Classifier) (eng : RegexEngine)
    (rows : List Row) (cm : ColumnMapping) (c e : List Row)
    (h : classifyDf C eng rows cm = .ok (c, e)) :
    (computeStats c e).total_rows = rows.length ∧
    (computeStats c e).classified_rows + (computeStats c e).exception_rows =
      (computeStats c e).total_rows ∧
    c.length + e.length = rows.length ∧
    (∃ ann, annotatedRows C eng rows cm = .ok ann ∧
      List.Perm c ((ann.filter fun r => reasonOf r == "").map
        fun r => dropCol r "_exception_reason") ∧
      e = ann.filter (fun r => reasonOf r != "")) := by
  unfold classifyDf at h
  cases hann : annotatedRows C eng rows cm with
  | error msg => rw [hann] at h; cases h
  | ok ann =>
    rw [hann] at h
    injection h with hpair
    obtain ⟨hc, he⟩ := Prod.mk.inj hpair
    have hlen_ann : ann.length = rows.length := by
      unfold annotatedRows at hann
      cases hres : classifyResults C eng cm rows with
      | error m => rw [hres] at hann; cases hann
      | ok res =>
        rw [hres] at hann
        injection hann with hann2
        rw [← hann2, List.length_zipWith,
          classifyResults_length C eng cm rows res hres, Nat.min_self]
    have hsplit : (ann.filter fun r => reasonOf r == "").length +
        (ann.filter fun r => reasonOf r != "").length = ann.length := by
      have hperm := (List.filter_append_perm (fun r => reasonOf r == "") ann).length_eq
      rw [List.length_append] at hperm
      exact hperm
    have hc_len : c.length = (ann.filter fun r => reasonOf r == "").length := by
      rw [← hc, List.length_mergeSort, List.length_map]
    have he_len : e.length = (ann.filter fun r => reasonOf r != "").length := by
      rw [← he]
    have hce : c.length + e.length = rows.length := by
      rw [hc_len, he_len, hsplit, hlen_ann]
    refine ⟨?_, rfl, hce, ann, rfl, ?_, he.symm⟩
    · exact hce
    · rw [← hc]
      exact List.mergeSort_perm _ rowLe

/-- Witness for C1 at the fixture dataset. -/
theorem c1_witness :
    (computeStats classifiedEx exceptionsEx).total_rows = rowsEx.length ∧
    (computeStats classifiedEx exceptionsEx).classified_rows +
      (computeStats classifiedEx exceptionsEx).exception_rows =
      (computeStats classifiedEx exceptionsEx).total_rows ∧
    classifiedEx.length + exceptionsEx.length = rowsEx.length ∧
    (∃ ann, annotatedRows classifierEx engEx rowsEx cmEx = .ok ann ∧
      List.Perm classifiedEx ((ann.filter fun r => reasonOf r == "").map
        fun r => dropCol r "_exception_reason") ∧
      exceptionsEx = ann.filter (fun r => reasonOf r != "")) :=
  c1_partition_and_stats classifierEx engEx rowsEx cmEx classifiedEx exceptionsEx
    (by
      have hstep : classifyDf classifierEx engEx rowsEx cmEx =
          .ok (unsortedEx.mergeSort rowLe, exceptionsEx) := rfl
      have hsort : unsortedEx.mergeSort rowLe = classifiedEx := by
        simp (disch := decide) [List.mergeSort, List.merge, unsortedEx, classifiedEx]
      rw [hstep, hsort])

/-- On a `rowLe`-comparison, a LETTERSHOP routing on the right forces one on
the left: the primary bucket group precedes everything else. -/
theorem rowLe_lettershop_first {a b : Row} (h : rowLe a b = true)
    (hb : getColD b "Routing" "" = "LETTERSHOP") :
    getColD a "Routing" "" = "LETTERSHOP" := by
  by_contra hne
  simp only [rowLe, keyLe, irelandKey, lexComb, lexStr] at h
  simp only [hb] at h
  simp [bucketFlag, hne] at h

/-- On a `rowLe`-comparison with equal routings, the area sub-keys are
ordered. -/
theorem rowLe_area_of_eq_routing {a b : Row} (h : rowLe a b = true)
    (hr : getColD a "Routing" "" = getColD b "Routing" "") :
    lexComb sLeB
      (bucketFlag (getColD a "Lettershop Area" ""), getColD a "Lettershop Area" "")
      (bucketFlag (getColD b "Lettershop Area" ""), getColD b "Lettershop Area" "")
      = true := by
  simp only [rowLe, keyLe, irelandKey, lexComb, lexStr] at h
  simp only [hr, lt_self_iff_false, decide_False, clLt_irrefl, beq_self_eq_true,
    Bool.false_or, Bool.true_and, decide_True] at h
  simp only [lexComb]
  exact h

/-- Claim C6: the classified output is stably sorted.  Ireland profile: the
output is `rowLe`-sorted (primary LETTERSHOP bucket first, routing, then
area key), LETTERSHOP rows precede all others, rows with equal routing are
ordered by area key, and for every sort key the rows carrying that key
appear exactly as in the unsorted (input-order) classified table.  Spain
profile: the output is sorted by (routing, area) and is likewise stable. -/
theorem c6_stable_sorted_output :
    (∀ (C : Classifier) (eng : RegexEngine) (rows : List Row)
       (cm : ColumnMapping) (c e u : List Row),
      classifyDf C eng rows cm = .ok (c, e) →
      classifyUnsorted C eng rows cm = .ok u →
      c.Pairwise (fun a b => rowLe a b = true) ∧
      c.Pairwise (fun a b =>
        getColD b "Routing" "" = "LETTERSHOP" →
        getColD a "Routing" "" = "LETTERSHOP") ∧
      c.Pairwise (fun a b =>
        getColD a "Routing" "" = getColD b "Routing" "" →
        lexComb sLeB
          (bucketFlag (getColD a "Lettershop Area" ""),
            getColD a "Lettershop Area" "")
          (bucketFlag (getColD b "Lettershop Area" ""),
            getColD b "Lettershop Area" "") = true) ∧
      (∀ k, c.filter (fun r => irelandKey r == k) =
        u.filter (fun r => irelandKey r == k))) ∧
    (∀ (d1 : List (String × String)) (rows : List Row) (cm : ColumnMapping),
      (spainClassify d1 rows cm).1.Pairwise (fun a b => spainLe a b = true) ∧
      ∀ k, (spainClassify d1 rows cm).1.filter (fun r => spainKey r == k) =
        (spainUnsorted d1 rows cm).filter (fun r => spainKey r == k)) := by
  constructor
  · intro C eng rows cm c e u h hu
    unfold classifyDf at h
    unfold classifyUnsorted at hu
    cases hann : annotatedRows C eng rows cm with
    | error msg => rw [hann] at h; cases h
    | ok ann =>
      rw [hann] at h hu
      injection h with hpair
      obtain ⟨hc, -⟩ := Prod.mk.inj hpair
      injection hu with hu2
      have hcu : c = u.mergeSort rowLe := by rw [← hc, hu2]
      have hsorted : c.Pairwise (fun a b => rowLe a b = true) := by
        rw [hcu]
        exact List.sorted_mergeSort rowLe_trans rowLe_total u
      refine ⟨hsorted, ?_, ?_, ?_⟩
      · exact hsorted.imp fun hab hb => rowLe_lettershop_first hab hb
      · exact hsorted.imp fun hab hr => rowLe_area_of_eq_routing hab hr
      · intro k
        rw [hcu]
        apply mergeSort_filter_stable rowLe rowLe_trans rowLe_total
        intro a b ha hb
        have ha2 : irelandKey a = k := by simpa using ha
        have hb2 : irelandKey b = k := by simpa using hb
        unfold rowLe
        rw [ha2, hb2]
        exact keyLe_refl k
  · intro d1 rows cm
    constructor
    · exact List.sorted_mergeSort spainLe_trans spainLe_total _
    · intro k
      apply mergeSort_filter_stable spainLe spainLe_trans spainLe_total
      intro a b ha hb
      have ha2 : spainKey a = k := by simpa using ha
      have hb2 : spainKey b = k := by simpa using hb
      unfold spainLe
      rw [ha2, hb2]
      exact lexStr_refl sLeB_refl k

/-- Witness for C6: the Ireland conjunct applied to the fixture run. -/
theorem c6_witness :
    classifiedEx.Pairwise (fun a b => rowLe a b = true) ∧
    classifiedEx.Pairwise (fun a b =>
      getColD b "Routing" "" = "LETTERSHOP" →
      getColD a "Routing" "" = "LETTERSHOP") ∧
    classifiedEx.Pairwise (fun a b =>
      getColD a "Routing" "" = getColD b "Routing" "" →
      lexComb sLeB
        (bucketFlag (getColD a "Lettershop Area" ""),
          getColD a "Lettershop Area" "")
        (bucketFlag (getColD b "Lettershop Area" ""),
          getColD b "Lettershop Area" "") = true) ∧
    (∀ k, classifiedEx.filter (fun r => irelandKey r == k) =
      unsortedEx.filter (fun r => irelandKey r == k)) :=
  c6_stable_sorted_output.1 classifierEx engEx rowsEx cmEx classifiedEx
    exceptionsEx unsortedEx
    (by
      have hstep : classifyDf classifierEx engEx rowsEx cmEx =
          .ok (unsortedEx.mergeSort rowLe, exceptionsEx) := rfl
      have hsort : unsortedEx.mergeSort rowLe = classifiedEx := by
        simp (disch := decide) [List.mergeSort, List.merge, unsortedEx, classifiedEx]
      rw [hstep, hsort])
    (by decide)

/-- A binding made by an earlier pass survives every later pass: passes
skip already-mapped fields and only append bindings for other fields. -/
theorem runPass_preserves (matcher : List String → List String → Option String)
    (aliases : List (String × List String)) :
    ∀ (fs : List String) (st : List (String × String) × List String)
      (f c : String), st.1.lookup f = some c →
      ((runPass matcher aliases fs st).1).lookup f = some c := by
  intro fs
  induction fs with
  | nil => intro st f c h; exact h
  | cons g gs ih =>
    intro st f c h
    simp only [runPass]
    by_cases hg : (st.1.lookup g).isSome
    · rw [if_pos hg]
      exact ih st f c h
    · rw [if_neg hg]
      cases hm : matcher ((aliases.lookup g).getD []) st.2 with
      | none => exact ih st f c h
      | some col => exact ih _ f c (lookup_append_left h _)

/-- Claim C3: the three detection passes are exhaustive in sequence — a field
mapped by the exact pass keeps that column in the final mapping, whatever
the later (normalized/fuzzy) passes do for other fields; concretely, with
country/county aliases, the `country` field resolves to the column
`"Country"` on the pools `["Country", "County"]` (either iteration order)
and `["Country"]` — in the latter case `county`, though it would
fuzzy-match `"Country"` at ratio 12/13, claims nothing. -/
theorem c3_three_pass_detection :
    (∀ (aliases : List (String × List String)) (pool : List String)
       (f c : String) (m : List (String × String)),
      ((runPass exactMatch aliases LOGICAL_FIELDS ([], pool)).1).lookup f = some c →
      detectColumns aliases pool = .ok m →
      m.lookup f = some c) ∧
    detectColumns aliasesEx ["Country", "County"] =
      .ok [("county", "County"), ("country", "Country")] ∧
    detectColumns aliasesEx ["County", "Country"] =
      .ok [("county", "County"), ("country", "Country")] ∧
    detectColumns aliasesEx ["Country"] = .ok [("country", "Country")] ∧
    scoreGeThreshold (ratioPair (normalizeSimple "county").data
      (normalizeSimple "Country").data) = true ∧
    fuzzyMatch ["county"] ["Country"] = some "Country" := by
  refine ⟨?_, by decide, by decide, by decide, by decide, by decide⟩
  intro aliases pool f c m h1 hdet
  have hp : ((runPass fuzzyMatch aliases LOGICAL_FIELDS
      (runPass normalizedMatch aliases LOGICAL_FIELDS
        (runPass exactMatch aliases LOGICAL_FIELDS ([], pool)))).1).lookup f =
      some c :=
    runPass_preserves fuzzyMatch aliases LOGICAL_FIELDS _ f c
      (runPass_preserves normalizedMatch aliases LOGICAL_FIELDS _ f c h1)
  unfold detectColumns at hdet
  cases hemp : (runPass fuzzyMatch aliases LOGICAL_FIELDS
      (runPass normalizedMatch aliases LOGICAL_FIELDS
        (runPass exactMatch aliases LOGICAL_FIELDS ([], pool)))).1.isEmpty with
  | true =>
    rw [if_pos hemp] at hdet
    cases hdet
  | false =>
    rw [if_neg (by rw [hemp]; exact Bool.false_ne_true)] at hdet
    injection hdet with hm
    rw [← hm]
    exact hp

/-- Witness for C3: the exact pass maps `country` to `"Country"` on the
single-column pool, and that binding is in the final mapping. -/
theorem c3_witness :
    ([("country", "Country")] : List (String × String)).lookup "country" =
      some "Country" :=
  c3_three_pass_detection.1 aliasesEx ["Country"] "country" "Country"
    [("country", "Country")] (by decide) (by decide)

/-- Claim C9 counterexample: column detection depends on the iteration
order of the available-column set: on the same set of columns
`{"City", "CITY"}` presented in the two possible orders, the `city` field
is mapped to different columns. -/
theorem c9_counterexample :
    List.Perm ["City", "CITY"] ["CITY", "City"] ∧
    detectColumns aliasesEx ["City", "CITY"] ≠
      detectColumns aliasesEx ["CITY", "City"] := by
  constructor
  · decide
  · decide

/-- Claim C9 amended: classification is deterministic and depends only on
each row's combined-address and country-column projections (plus the
loaded configuration): datasets agreeing on those projections produce
identical classification results, whatever other columns hold. -/
theorem c9_deterministic_classification (C : Classifier) (eng : RegexEngine)
    (cm : ColumnMapping) :
    ∀ rows1 rows2 : List Row,
      rows1.map combinedOf = rows2.map combinedOf →
      rows1.map (countryValOf cm) = rows2.map (countryValOf cm) →
      classifyResults C eng cm rows1 = classifyResults C eng cm rows2 := by
  intro rows1
  induction rows1 with
  | nil =>
    intro rows2 h1 _
    cases rows2 with
    | nil => rfl
    | cons q qs => cases h1
  | cons r rs ih =>
    intro rows2 h1 h2
    cases rows2 with
    | nil => cases h1
    | cons q qs =>
      simp only [List.map_cons, List.cons.injEq] at h1 h2
      obtain ⟨hc, hcs⟩ := h1
      obtain ⟨hv, hvs⟩ := h2
      simp only [classifyResults, hc, hv, ih qs hcs hvs]

/-- Witness for C9 (amended): two one-row datasets differing in an extra
payload column classify identically. -/
theorem c9_witness :
    classifyResults classifierEx engEx cmEx
      [[("combined_address", "456 Oak Road, Cork City"), ("Country", "Ireland"),
        ("Extra", "x")]] =
    classifyResults classifierEx engEx cmEx
      [[("Note", "y"), ("combined_address", "456 Oak Road, Cork City"),
        ("Country", "Ireland")]] :=
  c9_deterministic_classification classifierEx engEx cmEx
    [[("combined_address", "456 Oak Road, Cork City"), ("Country", "Ireland"),
      ("Extra", "x")]]
    [[("Note", "y"), ("combined_address", "456 Oak Road, Cork City"),
      ("Country", "Ireland")]]
    (by decide) (by decide)

end DataSorter
